import Mathlib

/-!
Verification of the DigiLima contact-form pipeline.

Shallow embedding of the two source files:
  * `src/api/contact.js`   — the serverless submission handler (validation,
    e-mail templating, two provider send calls, JSON response);
  * `src/assets/js/main.js` — the client-side form validation and the
    language-switching logic.

Conventions of the embedding:
  * a JSON field value is a `JsonVal` (composite JSON values — objects and
    arrays — are outside the model; no claim depends on them); a field absent
    from the request body is `Option.none` (JavaScript `undefined`);
  * JavaScript truthiness of a destructured field is `truthy`;
  * JavaScript numbers are modelled as integers (`Int`); the only number fact
    the code uses is truthiness (`0` falsy, any other value truthy);
  * the nondeterministic timestamp (`new Date().toLocaleDateString(...)`) is
    an explicit `currentDate : String` parameter;
  * the e-mail provider (`resend.emails.send`, which either returns an object
    with an `id` or throws) is an oracle `provider : Nat → SendResult` giving
    the outcome of the k-th send call of the invocation;
  * the handler result records the HTTP status, the JSON body, and the list
    of provider send calls that were issued, in order.
-/

namespace Digilima

/-- A JSON scalar value as it can appear in a request-body field. -/
inductive JsonVal where
  | null
  | bool (b : Bool)
  | num (n : Int)
  | str (s : String)
deriving DecidableEq, Repr

/-- JavaScript truthiness of a destructured request-body field:
`undefined` (absent), `null`, `false`, `0` and `""` are falsy. -/
def truthy : Option JsonVal → Bool
  | none => false
  | some .null => false
  | some (.bool b) => b
  | some (.num n) => n != 0
  | some (.str s) => s != ""

/-- Whether the field holds a JSON string. -/
def isStr : Option JsonVal → Bool
  | some (.str _) => true
  | _ => false

/-- JavaScript string coercion of a field value, as template-literal
interpolation and `RegExp.test` apply it. -/
def jsToString : Option JsonVal → String
  | none => "undefined"
  | some .null => "null"
  | some (.bool b) => if b then "true" else "false"
  | some (.num n) => toString n
  | some (.str s) => s

/-- The characters matched by the JavaScript regex class `\s`. -/
def jsWhitespace (c : Char) : Bool :=
  c = ' ' || c = '\t' || c = '\n' || c = '\r' ||
  c.val = 11 || c.val = 12 ||
  c.val = 0xa0 || c.val = 0x1680 ||
  (0x2000 ≤ c.val && c.val ≤ 0x200a) ||
  c.val = 0x2028 || c.val = 0x2029 || c.val = 0x202f || c.val = 0x205f ||
  c.val = 0x3000 || c.val = 0xfeff

/-- The character class `[^\s@]` of the e-mail regex. -/
def emailAtomChar (c : Char) : Bool :=
  !jsWhitespace c && c != '@'

/-- `src/api/contact.js:55` — `/^[^\s@]+@[^\s@]+\.[^\s@]+$/.test s`.
The pattern is `A+ @ A+ \. A+` with `A = [^\s@]`: since `A` excludes `@`,
a match has exactly one `@`; everything else is a run of `A`-characters on
each side of the `@`, with some `.` strictly inside the right-hand run
(`.` itself is an `A`-character, so further dots may appear anywhere). -/
def emailRegexTest (s : String) : Bool :=
  let cs := s.toList
  let l := cs.takeWhile (fun c => c != '@')
  let r := (cs.dropWhile (fun c => c != '@')).drop 1
  (cs.count '@' == 1) && !l.isEmpty && l.all emailAtomChar &&
    !r.isEmpty && r.all emailAtomChar && ((r.drop 1).dropLast.contains '.')

/-- `src/assets/js/main.js:354-357` — the client-side validator; the regex
literal is character-for-character the one of `src/api/contact.js:55`. -/
def isValidEmail (s : String) : Bool :=
  let cs := s.toList
  let l := cs.takeWhile (fun c => c != '@')
  let r := (cs.dropWhile (fun c => c != '@')).drop 1
  (cs.count '@' == 1) && !l.isEmpty && l.all emailAtomChar &&
    !r.isEmpty && r.all emailAtomChar && ((r.drop 1).dropLast.contains '.')

/-- JavaScript `String.prototype.trim` (strips `\s` and line terminators,
all of which are in `jsWhitespace`). -/
def jsTrim (s : String) : String :=
  String.mk (((s.toList.dropWhile jsWhitespace).reverse.dropWhile jsWhitespace).reverse)

/-- Whether `p` is a prefix of `l` (boolean helper for `jsIncludes`). -/
def prefixCheck : List Char → List Char → Bool
  | [], _ => true
  | _ :: _, [] => false
  | a :: as, b :: bs => a == b && prefixCheck as bs

/-- Whether `p` occurs as a contiguous run inside `l`. -/
def infixCheck (p : List Char) : List Char → Bool
  | [] => p.isEmpty
  | b :: bs => prefixCheck p (b :: bs) || infixCheck p bs

/-- JavaScript `String.prototype.includes`. -/
def jsIncludes (s sub : String) : Bool :=
  infixCheck sub.toList s.toList

example : emailRegexTest "jane@x.com" = true := by decide
example : emailRegexTest "jane@xcom" = false := by decide
example : emailRegexTest "jane@x.c om" = false := by decide
example : emailRegexTest "ja ne@x.com" = false := by decide
example : emailRegexTest "@x.com" = false := by decide
example : emailRegexTest "a@b.c.d" = true := by decide
example : emailRegexTest "a@@b.c" = false := by decide
example : jsTrim " jane@x.com " = "jane@x.com" := by decide


/-- The destructured request body of `src/api/contact.js:28-38`: each field is
absent (`none` = `undefined`) or a JSON scalar. -/
structure ReqBody where
  name : Option JsonVal
  email : Option JsonVal
  phone : Option JsonVal
  company : Option JsonVal
  budget : Option JsonVal
  projectType : Option JsonVal
  message : Option JsonVal
  consent : Option JsonVal
  website : Option JsonVal
deriving DecidableEq, Repr

def notifHtmlPhoneBlock (phone : Option JsonVal) : String :=
  if truthy phone then
    "
            <div class=\"field\">
              <label class=\"field-label\">📱 Phone</label>
              <div class=\"field-value\"><a href=\"tel:" ++ jsToString phone ++ "\" style=\"color: #2563EB; text-decoration: none;\">" ++ jsToString phone ++ "</a></div>
            </div>
            "
  else ""

def notifHtmlCompanyBlock (company : Option JsonVal) : String :=
  if truthy company then
    "
            <div class=\"field\">
              <label class=\"field-label\">🏢 Company</label>
              <div class=\"field-value\">" ++ jsToString company ++ "</div>
            </div>
            "
  else ""

def notifHtmlBudgetBlock (budget : Option JsonVal) : String :=
  if truthy budget then
    "
            <div class=\"field\">
              <label class=\"field-label\">💰 Budget Range</label>
              <div class=\"field-value " ++ (if jsIncludes (jsToString budget) "10000+" then "priority-high" else if jsIncludes (jsToString budget) "5000" then "priority-medium" else "") ++ "\">" ++ jsToString budget ++ "</div>
            </div>
            "
  else ""

def notifHtmlProjectTypeBlock (projectType : Option JsonVal) : String :=
  if truthy projectType then
    "
            <div class=\"field\">
              <label class=\"field-label\">🎯 Project Type</label>
              <div class=\"field-value\">" ++ jsToString projectType ++ "</div>
            </div>
            "
  else ""

def notifHtml (currentDate : String) (b : ReqBody) : String :=
  "
      <!DOCTYPE html>
      <html>
      <head>
        <meta charset=\"UTF-8\">
        <meta name=\"viewport\" content=\"width=device-width, initial-scale=1.0\">
        <title>New Contact Form Submission - DigiLima</title>
        <style>
          body \x7b font-family: 'Segoe UI', Tahoma, Geneva, Verdana, sans-serif; line-height: 1.6; color: #333; margin: 0; padding: 0; \x7d
          .container \x7b max-width: 600px; margin: 0 auto; padding: 20px; \x7d
          .header \x7b background: linear-gradient(135deg, #2563EB 0%, #1D4ED8 100%); color: white; padding: 20px; text-align: center; \x7d
          .content \x7b background: #f8f9fa; padding: 30px; \x7d
          .field \x7b margin-bottom: 20px; \x7d
          .field-label \x7b font-weight: bold; color: #2563EB; display: block; margin-bottom: 5px; \x7d
          .field-value \x7b background: white; padding: 10px; border-radius: 5px; border-left: 3px solid #2563EB; \x7d
          .footer \x7b background: #1f2937; color: white; padding: 20px; text-align: center; font-size: 14px; \x7d
          .priority-high \x7b border-left-color: #ef4444; \x7d
          .priority-medium \x7b border-left-color: #f59e0b; \x7d
        </style>
      </head>
      <body>
        <div class=\"container\">
          <div class=\"header\">
            <h1>🚀 New Contact Form Submission</h1>
            <p>DigiLima.com - " ++ currentDate ++ "</p>
          </div>
          
          <div class=\"content\">
            <div class=\"field\">
              <label class=\"field-label\">👤 Name</label>
              <div class=\"field-value\">" ++ jsToString b.name ++ "</div>
            </div>
            
            <div class=\"field\">
              <label class=\"field-label\">📧 Email</label>
              <div class=\"field-value\"><a href=\"mailto:" ++ jsToString b.email ++ "\" style=\"color: #2563EB; text-decoration: none;\">" ++ jsToString b.email ++ "</a></div>
            </div>
            
            " ++ notifHtmlPhoneBlock b.phone ++ "
            
            " ++ notifHtmlCompanyBlock b.company ++ "
            
            " ++ notifHtmlBudgetBlock b.budget ++ "
            
            " ++ notifHtmlProjectTypeBlock b.projectType ++ "
            
            <div class=\"field\">
              <label class=\"field-label\">💬 Message</label>
              <div class=\"field-value\" style=\"white-space: pre-wrap;\">" ++ jsToString b.message ++ "</div>
            </div>
            
            <div class=\"field\">
              <label class=\"field-label\">✅ GDPR Consent</label>
              <div class=\"field-value\">✓ Customer has provided consent to be contacted</div>
            </div>
          </div>
          
          <div class=\"footer\">
            <p><strong>Next Steps:</strong></p>
            <p>• Respond within 2 hours during business hours</p>
            <p>• Add contact details to CRM system</p>
            <p>• Schedule follow-up call if budget > €5,000</p>
            <hr style=\"border: 0; border-top: 1px solid #374151; margin: 20px 0;\">
            <p>DigiLima - Web Development Services<br>
            📍 Limassol, Cyprus | 📧 hello@digilima.com | 📱 +357 99 123 456</p>
          </div>
        </div>
      </body>
      </html>
    "

def notifTextPhoneLine (phone : Option JsonVal) : String :=
  if truthy phone then
    "Phone: " ++ jsToString phone ++ ""
  else ""

def notifTextCompanyLine (company : Option JsonVal) : String :=
  if truthy company then
    "Company: " ++ jsToString company ++ ""
  else ""

def notifTextBudgetLine (budget : Option JsonVal) : String :=
  if truthy budget then
    "Budget: " ++ jsToString budget ++ ""
  else ""

def notifTextProjectTypeLine (projectType : Option JsonVal) : String :=
  if truthy projectType then
    "Project Type: " ++ jsToString projectType ++ ""
  else ""

def notifText (currentDate : String) (b : ReqBody) : String :=
  "
New Contact Form Submission - DigiLima.com

Submitted: " ++ currentDate ++ "

Contact Information:
Name: " ++ jsToString b.name ++ "
Email: " ++ jsToString b.email ++ "
" ++ notifTextPhoneLine b.phone ++ "
" ++ notifTextCompanyLine b.company ++ "

Project Details:
" ++ notifTextBudgetLine b.budget ++ "
" ++ notifTextProjectTypeLine b.projectType ++ "

Message:
" ++ jsToString b.message ++ "

GDPR Consent: ✓ Provided

---
DigiLima - Web Development Services
Limassol, Cyprus
hello@digilima.com | +357 99 123 456
    "

def notifSubjectBudgetPart (budget : Option JsonVal) : String :=
  if truthy budget then
    "(" ++ jsToString budget ++ ")"
  else ""

def notifSubject (b : ReqBody) : String :=
  "New Contact: " ++ jsToString b.name ++ " - " ++ (if truthy b.projectType then jsToString b.projectType else "General Inquiry") ++ " " ++ notifSubjectBudgetPart b.budget ++ ""

def autoReplyHtml (b : ReqBody) : String :=
  "
      <!DOCTYPE html>
      <html>
      <head>
        <meta charset=\"UTF-8\">
        <meta name=\"viewport\" content=\"width=device-width, initial-scale=1.0\">
        <title>Thank you for contacting DigiLima</title>
        <style>
          body \x7b font-family: 'Segoe UI', Tahoma, Geneva, Verdana, sans-serif; line-height: 1.6; color: #333; margin: 0; padding: 0; \x7d
          .container \x7b max-width: 600px; margin: 0 auto; padding: 20px; \x7d
          .header \x7b background: linear-gradient(135deg, #2563EB 0%, #1D4ED8 100%); color: white; padding: 20px; text-align: center; \x7d
          .content \x7b background: #f8f9fa; padding: 30px; \x7d
          .cta-button \x7b display: inline-block; background: #2563EB; color: white; padding: 12px 24px; text-decoration: none; border-radius: 6px; font-weight: bold; margin: 20px 0; \x7d
          .footer \x7b background: #1f2937; color: white; padding: 20px; text-align: center; font-size: 14px; \x7d
          .contact-info \x7b background: white; padding: 15px; border-radius: 6px; margin: 20px 0; border-left: 3px solid #2563EB; \x7d
        </style>
      </head>
      <body>
        <div class=\"container\">
          <div class=\"header\">
            <h1>Thank you, " ++ jsToString b.name ++ "!</h1>
            <p>We've received your message</p>
          </div>
          
          <div class=\"content\">
            <p>Dear " ++ jsToString b.name ++ ",</p>
            
            <p>Thank you for reaching out to DigiLima! We've received your inquiry about " ++ (if truthy b.projectType then jsToString b.projectType else "your project") ++ " and we're excited to learn more about how we can help.</p>
            
            <p><strong>What happens next?</strong></p>
            <ul>
              <li>We'll review your project details and requirements</li>
              <li>You'll receive a personal response from our team within 2-4 hours during business hours</li>
              <li>We'll schedule a consultation call to discuss your project in detail</li>
              <li>You'll receive a detailed proposal within 24-48 hours</li>
            </ul>
            
            <div class=\"contact-info\">
              <p><strong>In the meantime, here are a few things you can do:</strong></p>
              <ul>
                <li>📂 Check out our <a href=\"https://digilima.com/portfolio/\" style=\"color: #2563EB;\">recent projects</a> for inspiration</li>
                <li>📖 Read our <a href=\"https://digilima.com/blog/\" style=\"color: #2563EB;\">blog</a> for web development insights</li>
                <li>📱 Connect with us on social media for updates and tips</li>
              </ul>
            </div>
            
            <p>If you have any urgent questions, feel free to reach out directly:</p>
            <p>📧 <a href=\"mailto:hello@digilima.com\" style=\"color: #2563EB;\">hello@digilima.com</a><br>
            📱 <a href=\"tel:+35799123456\" style=\"color: #2563EB;\">+357 99 123 456</a></p>
            
            <p>We look forward to working with you!</p>
            
            <p>Best regards,<br>
            <strong>DigiLima Team</strong><br>
            Web Development Specialists</p>
          </div>
          
          <div class=\"footer\">
            <p>DigiLima - Lightning-fast websites for growing businesses</p>
            <p>📍 Limassol, Cyprus | 🌐 <a href=\"https://digilima.com\" style=\"color: white;\">digilima.com</a></p>
            <p style=\"font-size: 12px; margin-top: 20px; opacity: 0.8;\">
              You're receiving this email because you contacted us through our website. 
              We respect your privacy and follow GDPR guidelines.
            </p>
          </div>
        </div>
      </body>
      </html>
    "

def autoReplyText (b : ReqBody) : String :=
  "
Dear " ++ jsToString b.name ++ ",

Thank you for reaching out to DigiLima! We've received your inquiry about " ++ (if truthy b.projectType then jsToString b.projectType else "your project") ++ " and we're excited to learn more about how we can help.

What happens next?
- We'll review your project details and requirements
- You'll receive a personal response from our team within 2-4 hours during business hours
- We'll schedule a consultation call to discuss your project in detail
- You'll receive a detailed proposal within 24-48 hours

In the meantime, check out our recent projects at https://digilima.com/portfolio/ for inspiration.

If you have any urgent questions, feel free to reach out directly:
📧 hello@digilima.com
📱 +357 99 123 456

We look forward to working with you!

Best regards,
DigiLima Team
Web Development Specialists

---
DigiLima - Lightning-fast websites for growing businesses
Limassol, Cyprus | https://digilima.com
    "


/-- `src/api/contact.js:42-44`. -/
def missingFieldsError : String :=
  "Missing required fields. Please fill in all required information."

/-- `src/api/contact.js:49-51`. -/
def honeypotError : String :=
  "Form submission failed. Please try again."

/-- `src/api/contact.js:57-59`. -/
def invalidEmailError : String :=
  "Please enter a valid email address."

/-- `src/api/contact.js:339-341` (the `details` field, `undefined` outside
development mode, is not modelled). -/
def serverError : String :=
  "Sorry, there was an error sending your message. Please try again or contact us directly at hello@digilima.com."

/-- `src/api/contact.js:332`. -/
def successMessage : String :=
  "Thank you! Your message has been sent successfully. We'll get back to you within 24 hours."

/-- One argument object of a `resend.emails.send` call. -/
structure EmailMsg where
  fromAddr : String
  toAddrs : List String
  replyTo : Option String
  subject : String
  html : String
  text : String
  tags : List (String × String)
deriving DecidableEq, Repr

/-- Outcome of one provider send call: an object carrying an `id`, or a
thrown error. -/
inductive SendResult where
  | ok (id : String)
  | err
deriving DecidableEq, Repr

/-- The JSON response body the handler produces. -/
inductive RespBody where
  | empty
  | error (error : String)
  | success (message : String) (emailId : String)
deriving DecidableEq, Repr

/-- What one handler invocation did: HTTP status, JSON body, and the provider
send calls issued, in order (a call that threw is still a call made). -/
structure HandlerResult where
  status : Nat
  body : RespBody
  sends : List EmailMsg
deriving DecidableEq, Repr

/-- The notification e-mail of `src/api/contact.js:190-211`. After validation
the `email` field is a string (no other scalar coerces to a regex match), so
passing its string form as `replyTo` and recipient is exact. -/
def notificationEmail (currentDate : String) (b : ReqBody) : EmailMsg where
  fromAddr := "DigiLima Contact Form <noreply@digilima.com>"
  toAddrs := ["hello@digilima.com"]
  replyTo := some (jsToString b.email)
  subject := notifSubject b
  html := notifHtml currentDate b
  text := notifText currentDate b
  tags := [("source", "contact_form"),
           ("budget", if truthy b.budget then jsToString b.budget else "not_specified"),
           ("project_type", if truthy b.projectType then jsToString b.projectType else "general")]

/-- The auto-reply e-mail of `src/api/contact.js:313-325`. -/
def autoReplyEmail (b : ReqBody) : EmailMsg where
  fromAddr := "DigiLima <hello@digilima.com>"
  toAddrs := [jsToString b.email]
  replyTo := none
  subject := "Thank you for contacting DigiLima - We'll be in touch soon!"
  html := autoReplyHtml b
  text := autoReplyText b
  tags := [("type", "auto_reply")]

/-- The submission handler of `src/api/contact.js:8-344`.

One step needs a remark: when `budget` is truthy but not a string, building
the notification content evaluates `budget.includes(...)` on a non-string and
throws a `TypeError`, which the surrounding `try/catch` turns into a 500
response before any send call; the dedicated branch mirrors that. -/
def handler (method : String) (currentDate : String) (b : ReqBody)
    (provider : Nat → SendResult) : HandlerResult :=
  if method == "OPTIONS" then ⟨200, .empty, []⟩
  else if method != "POST" then ⟨405, .error "Method not allowed", []⟩
  else if !truthy b.name || !truthy b.email || !truthy b.message || !truthy b.consent then
    ⟨400, .error missingFieldsError, []⟩
  else if truthy b.website then
    ⟨400, .error honeypotError, []⟩
  else if !emailRegexTest (jsToString b.email) then
    ⟨400, .error invalidEmailError, []⟩
  else if truthy b.budget && !isStr b.budget then
    ⟨500, .error serverError, []⟩
  else
    let notif := notificationEmail currentDate b
    match provider 0 with
    | .err => ⟨500, .error serverError, [notif]⟩
    | .ok emailDataId =>
      let reply := autoReplyEmail b
      match provider 1 with
      | .err => ⟨500, .error serverError, [notif, reply]⟩
      | .ok _ => ⟨200, .success successMessage emailDataId, [notif, reply]⟩

/-- The conjunction of the three validation gates a POST body must pass
before any e-mail is rendered or sent. -/
def passesValidation (b : ReqBody) : Bool :=
  truthy b.name && truthy b.email && truthy b.message && truthy b.consent &&
    !truthy b.website && emailRegexTest (jsToString b.email)

/-! ## Client Form Controller (`src/assets/js/main.js`) -/

/-- A form control as `validateField` sees it: its current value, whether it
carries the `required` attribute, and its `type`. -/
structure FormField where
  value : String
  required : Bool
  type : String
deriving DecidableEq, Repr

/-- The visual feedback `showFieldError` leaves on a field: the `is-valid`
class, or the `is-invalid` class with the inline error message. -/
inductive FieldMark where
  | valid
  | invalid (message : String)
deriving DecidableEq, Repr

/-- `src/assets/js/main.js:322-326` — the localized required-field message. -/
def requiredFieldMessage (lang : String) : String :=
  if lang == "el" then "Αυτό το πεδίο είναι υποχρεωτικό" else "This field is required"

/-- `src/assets/js/main.js:327-331` — the localized invalid-e-mail message. -/
def invalidEmailMessage (lang : String) : String :=
  if lang == "el" then "Παρακαλώ εισάγετε έγκυρη διεύθυνση email"
  else "Please enter a valid email address"

/-- `src/assets/js/main.js:316-336` — `validateField`: the boolean it returns
and the visual feedback it shows. Note it validates the trimmed value. -/
def validateField (lang : String) (f : FormField) : Bool × FieldMark :=
  let value := jsTrim f.value
  if f.required && value == "" then
    (false, .invalid (requiredFieldMessage lang))
  else if f.type == "email" && value != "" && !isValidEmail value then
    (false, .invalid (invalidEmailMessage lang))
  else
    (true, .valid)

/-- `src/assets/js/main.js:303-314` — `validateForm`: folds over the form's
`[required]` fields, calling `validateField` on each one (the accumulator
only records failure, the call is made regardless), and returns the
aggregate flag; the mark list collects the feedback each field received. -/
def validateForm (lang : String) (fields : List FormField) : Bool × List FieldMark :=
  fields.foldl
    (fun acc f =>
      let r := validateField lang f
      (acc.1 && r.1, acc.2 ++ [r.2]))
    (true, [])

/-- `src/assets/js/main.js:224-234` — the JSON payload `handleFormSubmit`
builds from the raw form values: `FormData.get` yields the raw string of a
present control (`null` when the form has no such control), `consent` is the
comparison `formData.get('consent') === 'on'`, and the e-mail value is sent
untrimmed. -/
def submissionData (nameV emailV phoneV companyV budgetV projectTypeV messageV : Option String)
    (consentOn : Bool) (websiteV : Option String) : ReqBody where
  name := (nameV.map .str).getD .null |> some
  email := (emailV.map .str).getD .null |> some
  phone := (phoneV.map .str).getD .null |> some
  company := (companyV.map .str).getD .null |> some
  budget := (budgetV.map .str).getD .null |> some
  projectType := (projectTypeV.map .str).getD .null |> some
  message := (messageV.map .str).getD .null |> some
  consent := some (.bool consentOn)
  website := (websiteV.map .str).getD .null |> some

/-! ## Language switching (`src/assets/js/main.js`)

The DOM fragment the language logic touches is modelled as a list of
elements with a tag name, attributes, CSS classes, text content and a
placeholder; `localStorage` as an association list; the `lang` URL query
parameter and the root element's attributes as plain fields.  The `$`
helper (`main.js:38-41`) returns the bare element instead of the NodeList
when exactly one element matches, and a bare element has no `forEach`: each
collection update therefore throws a `TypeError` when its selector matches
exactly one element, modelled by `Option.none`.  Not modelled: the
`<title>`/meta handling of `updateTranslatableElements` (single-element
`querySelector`, cannot throw) and the partial mutations a throw leaves
behind — no claim depends on either. -/

structure Elem where
  tag : String
  attrs : List (String × String)
  classes : List String
  text : String
  placeholder : String
deriving DecidableEq, Repr

/-- `getAttribute`: the attribute's value, or `none` (JS `null`) when the
element does not carry it. -/
def getAttr (e : Elem) (a : String) : Option String :=
  (e.attrs.find? (fun p => p.1 == a)).map (fun p => p.2)

def hasAttr (e : Elem) (a : String) : Bool :=
  (getAttr e a).isSome

/-- `classList.add`. -/
def addClass (e : Elem) (c : String) : Elem :=
  if e.classes.contains c then e else { e with classes := e.classes ++ [c] }

/-- `classList.remove`. -/
def removeClass (e : Elem) (c : String) : Elem :=
  { e with classes := e.classes.filter (fun x => x != c) }

/-- The per-element body of `updateTranslatableElements` (`main.js:118-127`):
a falsy (absent or empty) `data-lang` attribute leaves the element alone;
for INPUT/TEXTAREA the translation goes to the placeholder, else to the
text content. -/
def applyTranslation (lang : String) (e : Elem) : Elem :=
  match getAttr e ("data-" ++ lang) with
  | none => e
  | some translation =>
    if translation == "" then e
    else if e.tag == "INPUT" || e.tag == "TEXTAREA" then
      { e with placeholder := translation }
    else
      { e with text := translation }

/-- `src/assets/js/main.js:116-139` — `updateTranslatableElements` over the
`[data-lang]` selection (`none` = the singleton-selection `TypeError`). -/
def updateTranslatableElements (lang : String) (es : List Elem) : Option (List Elem) :=
  if (es.filter (fun e => hasAttr e ("data-" ++ lang))).length == 1 then none
  else some (es.map (fun e =>
    if hasAttr e ("data-" ++ lang) then applyTranslation lang e else e))

/-- The per-toggle body of `updateLanguageToggles` (`main.js:143-154`). -/
def applyToggleClasses (currentLang : String) (e : Elem) : Elem :=
  if getAttr e "data-lang" == some currentLang then
    addClass (removeClass (addClass e "active") "btn-outline-secondary") "btn-primary"
  else
    addClass (removeClass (removeClass e "active") "btn-primary") "btn-outline-secondary"

/-- `src/assets/js/main.js:141-155` — `updateLanguageToggles` over the
`.lang-toggle` selection. -/
def updateLanguageToggles (currentLang : String) (es : List Elem) : Option (List Elem) :=
  if (es.filter (fun e => e.classes.contains "lang-toggle")).length == 1 then none
  else some (es.map (fun e =>
    if e.classes.contains "lang-toggle" then applyToggleClasses currentLang e else e))

/-- The per-element body of `updateFormPlaceholders` (`main.js:159-164`). -/
def applyPlaceholder (lang : String) (e : Elem) : Elem :=
  match getAttr e ("data-placeholder-" ++ lang) with
  | none => e
  | some p => if p == "" then e else { e with placeholder := p }

/-- `src/assets/js/main.js:157-165` — `updateFormPlaceholders` over the
`[data-placeholder-lang]` selection. -/
def updateFormPlaceholders (lang : String) (es : List Elem) : Option (List Elem) :=
  if (es.filter (fun e => hasAttr e ("data-placeholder-" ++ lang))).length == 1 then none
  else some (es.map (fun e =>
    if hasAttr e ("data-placeholder-" ++ lang) then applyPlaceholder lang e else e))

/-- `localStorage.getItem`. -/
def getItem (st : List (String × String)) (k : String) : Option String :=
  (st.find? (fun p => p.1 == k)).map (fun p => p.2)

/-- `localStorage.setItem`. -/
def setItem (st : List (String × String)) (k v : String) : List (String × String) :=
  (k, v) :: st.filter (fun p => p.1 != k)

/-- The page-scoped state the language logic reads and writes. -/
structure PageState where
  elems : List Elem
  docLang : String
  docDataLang : String
  storage : List (String × String)
  urlLang : Option String
  currentLang : String
deriving DecidableEq, Repr

/-- `src/assets/js/main.js:86-114` — `switchLanguage`: set the module
variable and the root element's attributes, run the three collection
updates, persist the choice under the `digilima_lang` storage key, and
reflect the language into the URL (`lang` parameter deleted for `en`).
`none` models a `TypeError` thrown by one of the collection updates, which
aborts the remaining steps (in particular nothing is persisted). -/
def switchLanguage (lang : String) (p : PageState) : Option PageState :=
  (updateTranslatableElements lang p.elems).bind fun es1 =>
    (updateLanguageToggles lang es1).bind fun es2 =>
      (updateFormPlaceholders lang es2).map fun es3 =>
        { elems := es3
          docLang := lang
          docDataLang := lang
          storage := setItem p.storage "digilima_lang" lang
          urlLang := if lang == "en" then none else some lang
          currentLang := lang }

/-- Truthiness plus the `['en', 'el'].includes` membership test. -/
def langOk : Option String → Bool
  | none => false
  | some s => s != "" && (s == "en" || s == "el")

/-- `src/assets/js/main.js:167-177` — `initLanguageFromURL`, run on page
load: a valid `lang` URL parameter wins, else a valid stored preference,
else the page is left as is. -/
def initLanguageFromURL (p : PageState) : Option PageState :=
  if langOk p.urlLang then switchLanguage (p.urlLang.getD "") p
  else if langOk (getItem p.storage "digilima_lang") then
    switchLanguage ((getItem p.storage "digilima_lang").getD "") p
  else some p

/-! ## Concrete inputs used by witnesses and counterexamples -/

/-- A provider whose every send call succeeds. -/
def okProvider : Nat → SendResult := fun _ => .ok "re_abc123"

/-- A provider whose first (notification) send succeeds and whose second
(auto-reply) send throws. -/
def autoReplyFailsProvider : Nat → SendResult := fun n => if n == 0 then .ok "re_abc123" else .err

/-- The request body with every field absent. -/
def emptyBody : ReqBody := ⟨none, none, none, none, none, none, none, none, none⟩

/-- The spec's example of a valid payload: `{name:"Jane", email:"jane@x.com",
message:"Hi", consent:true, website:""}`. -/
def validBody : ReqBody where
  name := some (.str "Jane")
  email := some (.str "jane@x.com")
  phone := none
  company := none
  budget := none
  projectType := none
  message := some (.str "Hi")
  consent := some (.bool true)
  website := some (.str "")

example : passesValidation validBody = true := by decide
example : (handler "POST" "5 October 2025" validBody okProvider).status = 200 := by decide

/-! ## Handler branch lemmas

One lemma per terminal branch of the POST path, so the claim proofs reduce
to case analysis on the validation booleans. -/

theorem handler_post_eq_missing (d : String) (b : ReqBody) (p : Nat → SendResult)
    (h1 : (!truthy b.name || !truthy b.email || !truthy b.message || !truthy b.consent) = true) :
    handler "POST" d b p = ⟨400, .error missingFieldsError, []⟩ := by
  unfold handler
  rw [if_neg (by decide), if_neg (by decide), if_pos h1]

theorem handler_post_eq_honeypot (d : String) (b : ReqBody) (p : Nat → SendResult)
    (h1 : (!truthy b.name || !truthy b.email || !truthy b.message || !truthy b.consent) = false)
    (h2 : truthy b.website = true) :
    handler "POST" d b p = ⟨400, .error honeypotError, []⟩ := by
  unfold handler
  rw [if_neg (by decide), if_neg (by decide), if_neg (by simp [h1]), if_pos h2]

theorem handler_post_eq_bademail (d : String) (b : ReqBody) (p : Nat → SendResult)
    (h1 : (!truthy b.name || !truthy b.email || !truthy b.message || !truthy b.consent) = false)
    (h2 : truthy b.website = false)
    (h3 : emailRegexTest (jsToString b.email) = false) :
    handler "POST" d b p = ⟨400, .error invalidEmailError, []⟩ := by
  unfold handler
  rw [if_neg (by decide), if_neg (by decide), if_neg (by simp [h1]), if_neg (by simp [h2]),
    if_pos (by simp [h3])]

theorem handler_post_eq_budgetthrow (d : String) (b : ReqBody) (p : Nat → SendResult)
    (h1 : (!truthy b.name || !truthy b.email || !truthy b.message || !truthy b.consent) = false)
    (h2 : truthy b.website = false)
    (h3 : emailRegexTest (jsToString b.email) = true)
    (h4 : (truthy b.budget && !isStr b.budget) = true) :
    handler "POST" d b p = ⟨500, .error serverError, []⟩ := by
  unfold handler
  rw [if_neg (by decide), if_neg (by decide), if_neg (by simp [h1]), if_neg (by simp [h2]),
    if_neg (by simp [h3]), if_pos h4]

theorem handler_post_eq_send (d : String) (b : ReqBody) (p : Nat → SendResult)
    (h1 : (!truthy b.name || !truthy b.email || !truthy b.message || !truthy b.consent) = false)
    (h2 : truthy b.website = false)
    (h3 : emailRegexTest (jsToString b.email) = true)
    (h4 : (truthy b.budget && !isStr b.budget) = false) :
    handler "POST" d b p =
      match p 0 with
      | .err => ⟨500, .error serverError, [notificationEmail d b]⟩
      | .ok emailDataId =>
        match p 1 with
        | .err => ⟨500, .error serverError, [notificationEmail d b, autoReplyEmail b]⟩
        | .ok _ => ⟨200, .success successMessage emailDataId,
            [notificationEmail d b, autoReplyEmail b]⟩ := by
  unfold handler
  rw [if_neg (by decide), if_neg (by decide), if_neg (by simp [h1]), if_neg (by simp [h2]),
    if_neg (by simp [h3]), if_neg (by simp [h4])]

/-- The validation-gate components implied by `passesValidation`. -/
theorem passesValidation_parts (b : ReqBody) (hv : passesValidation b = true) :
    (!truthy b.name || !truthy b.email || !truthy b.message || !truthy b.consent) = false ∧
    truthy b.website = false ∧ emailRegexTest (jsToString b.email) = true := by
  simp only [passesValidation, Bool.and_eq_true, Bool.not_eq_true'] at hv
  obtain ⟨⟨⟨⟨⟨hn, he⟩, hm⟩, hc⟩, hw⟩, hr⟩ := hv
  refine ⟨by simp [hn, he, hm, hc], hw, hr⟩

/-! ## Claim C1 -/

/-- A POST payload in which `consent` holds a truthy non-boolean value (the
string `"yes"`), so it is not the boolean `true`. -/
def consentStringBody : ReqBody where
  name := some (.str "Jane")
  email := some (.str "jane@x.com")
  phone := none
  company := none
  budget := none
  projectType := none
  message := some (.str "Hi")
  consent := some (.str "yes")
  website := some (.str "")

/-- C1 counterexample: a payload whose `consent` is not the boolean `true`
(it is the truthy string `"yes"`) on which the handler nevertheless responds
200 and makes both provider calls — the `!consent` check only rejects falsy
values, not every non-`true` value. -/
theorem consent_nonboolean_accepted :
    consentStringBody.consent ≠ some (.bool true) ∧
    (handler "POST" "5 October 2025" consentStringBody okProvider).status = 200 ∧
    (handler "POST" "5 October 2025" consentStringBody okProvider).sends.length = 2 := by
  refine ⟨by decide, rfl, rfl⟩

/-- C1 (amended): for every POST payload in which `name`, `email` or
`message` is missing or falsy, or in which `consent` is missing or falsy
(absent, `null`, `false`, `0` or `""` — not: any value other than the
boolean `true`), the handler responds 400 with the missing-fields error and
makes no call to the e-mail provider. -/
theorem handler_missing_required_rejects (d : String) (b : ReqBody) (p : Nat → SendResult)
    (h : truthy b.name = false ∨ truthy b.email = false ∨ truthy b.message = false ∨
      truthy b.consent = false) :
    (handler "POST" d b p).status = 400 ∧ (handler "POST" d b p).sends = [] := by
  have h1 : (!truthy b.name || !truthy b.email || !truthy b.message || !truthy b.consent) = true := by
    rcases h with h | h | h | h <;> simp [h]
  rw [handler_post_eq_missing d b p h1]
  exact ⟨rfl, rfl⟩

/-- C1 witness: the all-absent payload is rejected with 400 and no send. -/
theorem handler_missing_required_rejects_witness :
    (handler "POST" "5 October 2025" emptyBody okProvider).status = 400 ∧
    (handler "POST" "5 October 2025" emptyBody okProvider).sends = [] :=
  handler_missing_required_rejects "5 October 2025" emptyBody okProvider (Or.inl (by decide))

/-! ## Claim C4 -/

/-- C4: every POST payload whose honeypot `website` field holds a non-empty
string is answered with 400, whatever the other fields hold (either the
missing-fields check or the honeypot check fires, both with status 400). -/
theorem handler_honeypot_rejects (d : String) (b : ReqBody) (p : Nat → SendResult)
    (w : String) (hw : b.website = some (.str w)) (hne : w ≠ "") :
    (handler "POST" d b p).status = 400 := by
  have h2 : truthy b.website = true := by
    rw [hw]; simpa [truthy] using hne
  cases h1 : (!truthy b.name || !truthy b.email || !truthy b.message || !truthy b.consent) with
  | true => rw [handler_post_eq_missing d b p h1]
  | false => rw [handler_post_eq_honeypot d b p h1 h2]

/-- C4 witness: an otherwise-valid payload with `website := "spam"` gets 400. -/
theorem handler_honeypot_rejects_witness :
    (handler "POST" "5 October 2025"
      { validBody with website := some (.str "spam") } okProvider).status = 400 :=
  handler_honeypot_rejects "5 October 2025"
    { validBody with website := some (.str "spam") } okProvider "spam" rfl (by decide)

/-! ## Claim C5 -/

/-- C5: when the required fields and consent are present (truthy) and the
string form of `email` does not match the pattern `/^[^\s@]+@[^\s@]+\.[^\s@]+$/`,
the handler responds 400 (from the honeypot check or the e-mail format
check, both status 400). -/
theorem handler_bad_email_rejects (d : String) (b : ReqBody) (p : Nat → SendResult)
    (hn : truthy b.name = true) (he : truthy b.email = true)
    (hm : truthy b.message = true) (hc : truthy b.consent = true)
    (hbad : emailRegexTest (jsToString b.email) = false) :
    (handler "POST" d b p).status = 400 := by
  have h1 : (!truthy b.name || !truthy b.email || !truthy b.message || !truthy b.consent) = false := by
    simp [hn, he, hm, hc]
  cases h2 : truthy b.website with
  | true => rw [handler_post_eq_honeypot d b p h1 h2]
  | false => rw [handler_post_eq_bademail d b p h1 h2 hbad]

/-- C5 witness: `email := "jane@xcom"` (no dot after the `@`) gets 400. -/
theorem handler_bad_email_rejects_witness :
    (handler "POST" "5 October 2025"
      { validBody with email := some (.str "jane@xcom") } okProvider).status = 400 :=
  handler_bad_email_rejects "5 October 2025"
    { validBody with email := some (.str "jane@xcom") } okProvider
    (by decide) (by decide) (by decide) (by decide) (by decide)

/-! ## Claim C6 -/

/-- C6: whenever the handler answers a POST request with status 400 (missing
fields, honeypot, or malformed e-mail), the list of provider send calls it
made is empty: every rejection happens before any e-mail is sent. -/
theorem handler_400_sends_nothing (d : String) (b : ReqBody) (p : Nat → SendResult)
    (h : (handler "POST" d b p).status = 400) :
    (handler "POST" d b p).sends = [] := by
  cases h1 : (!truthy b.name || !truthy b.email || !truthy b.message || !truthy b.consent) with
  | true => rw [handler_post_eq_missing d b p h1]
  | false =>
    cases h2 : truthy b.website with
    | true => rw [handler_post_eq_honeypot d b p h1 h2]
    | false =>
      cases h3 : emailRegexTest (jsToString b.email) with
      | false => rw [handler_post_eq_bademail d b p h1 h2 h3]
      | true =>
        cases h4 : (truthy b.budget && !isStr b.budget) with
        | true => rw [handler_post_eq_budgetthrow d b p h1 h2 h3 h4]
        | false =>
          rw [handler_post_eq_send d b p h1 h2 h3 h4] at h
          cases hp0 : p 0 with
          | err => rw [hp0] at h; simp at h
          | ok id1 =>
            cases hp1 : p 1 with
            | err => rw [hp0, hp1] at h; simp at h
            | ok id2 => rw [hp0, hp1] at h; simp at h

/-- C6 witness: the empty payload is a 400 case, and indeed no send is made. -/
theorem handler_400_sends_nothing_witness :
    (handler "POST" "5 October 2025" emptyBody okProvider).sends = [] :=
  handler_400_sends_nothing "5 October 2025" emptyBody okProvider rfl

/-! ## Claim C2

The hypothesis `hb` restricts `budget` to the spec's data model (optional
free text): a truthy non-string `budget` would make the template evaluation
throw (`budget.includes` on a non-string) and the handler answer 500. -/

/-- C2: on a valid payload, when both provider calls succeed the handler
makes exactly two send calls — first the notification to the business
address `hello@digilima.com` with `replyTo` set to the submitter's e-mail,
then the auto-reply addressed to the submitter's e-mail — and responds 200
with `success` and the (non-empty) `emailId` returned by the provider for
the notification send. -/
theorem handler_valid_sends_two (d : String) (b : ReqBody) (p : Nat → SendResult)
    (id1 id2 : String)
    (hv : passesValidation b = true)
    (hb : truthy b.budget = true → isStr b.budget = true)
    (hp0 : p 0 = .ok id1) (hp1 : p 1 = .ok id2) (hid : id1 ≠ "") :
    (handler "POST" d b p).sends = [notificationEmail d b, autoReplyEmail b] ∧
    (notificationEmail d b).toAddrs = ["hello@digilima.com"] ∧
    (notificationEmail d b).replyTo = some (jsToString b.email) ∧
    (autoReplyEmail b).toAddrs = [jsToString b.email] ∧
    (autoReplyEmail b).tags = [("type", "auto_reply")] ∧
    (handler "POST" d b p).status = 200 ∧
    (handler "POST" d b p).body = .success successMessage id1 ∧
    id1 ≠ "" := by
  obtain ⟨h1, h2, h3⟩ := passesValidation_parts b hv
  have h4 : (truthy b.budget && !isStr b.budget) = false := by
    cases ht : truthy b.budget with
    | false => simp
    | true => simp [hb ht]
  rw [handler_post_eq_send d b p h1 h2 h3 h4, hp0, hp1]
  exact ⟨rfl, rfl, rfl, rfl, rfl, rfl, rfl, hid⟩

/-- C2 witness at the spec's example payload with an all-succeeding provider. -/
theorem handler_valid_sends_two_witness :
    (handler "POST" "5 October 2025" validBody okProvider).sends =
      [notificationEmail "5 October 2025" validBody, autoReplyEmail validBody] ∧
    (notificationEmail "5 October 2025" validBody).toAddrs = ["hello@digilima.com"] ∧
    (notificationEmail "5 October 2025" validBody).replyTo = some (jsToString validBody.email) ∧
    (autoReplyEmail validBody).toAddrs = [jsToString validBody.email] ∧
    (autoReplyEmail validBody).tags = [("type", "auto_reply")] ∧
    (handler "POST" "5 October 2025" validBody okProvider).status = 200 ∧
    (handler "POST" "5 October 2025" validBody okProvider).body =
      .success successMessage "re_abc123" ∧
    ("re_abc123" : String) ≠ "" :=
  handler_valid_sends_two "5 October 2025" validBody okProvider "re_abc123" "re_abc123"
    (by decide) (by decide) rfl rfl (by decide)

/-! ## Claim C3 -/

/-- C3: on an accepted payload, if the notification send succeeds but the
auto-reply send throws, the handler responds 500 with the generic error body
— total failure as far as the caller can tell, no partial-success response —
although both send calls were made and the notification had already gone
out. -/
theorem handler_autoreply_failure_reports_500 (d : String) (b : ReqBody) (p : Nat → SendResult)
    (id1 : String)
    (hv : passesValidation b = true)
    (hb : truthy b.budget = true → isStr b.budget = true)
    (hp0 : p 0 = .ok id1) (hp1 : p 1 = .err) :
    (handler "POST" d b p).status = 500 ∧
    (handler "POST" d b p).body = .error serverError ∧
    (handler "POST" d b p).sends = [notificationEmail d b, autoReplyEmail b] := by
  obtain ⟨h1, h2, h3⟩ := passesValidation_parts b hv
  have h4 : (truthy b.budget && !isStr b.budget) = false := by
    cases ht : truthy b.budget with
    | false => simp
    | true => simp [hb ht]
  rw [handler_post_eq_send d b p h1 h2 h3 h4, hp0, hp1]
  exact ⟨rfl, rfl, rfl⟩

/-- C3 witness: the valid payload with a provider whose second call throws. -/
theorem handler_autoreply_failure_reports_500_witness :
    (handler "POST" "5 October 2025" validBody autoReplyFailsProvider).status = 500 ∧
    (handler "POST" "5 October 2025" validBody autoReplyFailsProvider).body =
      .error serverError ∧
    (handler "POST" "5 October 2025" validBody autoReplyFailsProvider).sends =
      [notificationEmail "5 October 2025" validBody, autoReplyEmail validBody] :=
  handler_autoreply_failure_reports_500 "5 October 2025" validBody autoReplyFailsProvider
    "re_abc123" (by decide) (by decide) rfl rfl

/-! ## Claim C7 -/

theorem prefixCheck_append (n l b : List Char) (h : prefixCheck n l = true) :
    prefixCheck n (l ++ b) = true := by
  induction n generalizing l with
  | nil => rfl
  | cons a as ih =>
    cases l with
    | nil => simp [prefixCheck] at h
    | cons x xs =>
      simp only [prefixCheck, Bool.and_eq_true] at h
      simp only [List.cons_append, prefixCheck, Bool.and_eq_true]
      exact ⟨h.1, ih xs h.2⟩

theorem infixCheck_of_isEmpty (n l : List Char) (h : n.isEmpty = true) :
    infixCheck n l = true := by
  cases n with
  | cons a as => simp at h
  | nil =>
    induction l with
    | nil => rfl
    | cons x xs ih => simp only [infixCheck, prefixCheck, Bool.true_or]

theorem infixCheck_append_left (n a b : List Char) (h : infixCheck n a = true) :
    infixCheck n (a ++ b) = true := by
  induction a with
  | nil => exact infixCheck_of_isEmpty n b h
  | cons x xs ih =>
    simp only [infixCheck, Bool.or_eq_true] at h
    simp only [List.cons_append, infixCheck, Bool.or_eq_true]
    rcases h with h | h
    · exact Or.inl (prefixCheck_append n (x :: xs) b h)
    · exact Or.inr (ih h)

theorem infixCheck_append_right (n a b : List Char) (h : infixCheck n b = true) :
    infixCheck n (a ++ b) = true := by
  induction a with
  | nil => exact h
  | cons x xs ih =>
    simp only [List.cons_append, infixCheck, Bool.or_eq_true]
    exact Or.inr ih

theorem string_toList_append (a b : String) : (a ++ b).toList = a.toList ++ b.toList := by
  cases a; cases b; rfl

/-- An occurrence in the left part of a concatenation survives appending. -/
theorem jsIncludes_append_left (a b n : String) (h : jsIncludes a n = true) :
    jsIncludes (a ++ b) n = true := by
  unfold jsIncludes at h ⊢
  rw [string_toList_append]
  exact infixCheck_append_left n.toList a.toList b.toList h

/-- An occurrence in the right part of a concatenation survives prepending. -/
theorem jsIncludes_append_right (a b n : String) (h : jsIncludes b n = true) :
    jsIncludes (a ++ b) n = true := by
  unfold jsIncludes at h ⊢
  rw [string_toList_append]
  exact infixCheck_append_right n.toList a.toList b.toList h

/-- C7: for an accepted payload, each absent optional field (`phone`,
`company`, `budget`, `projectType`) contributes the empty string to both the
HTML and the plain-text notification document — the section is omitted
entirely — whereas a present (truthy) optional field renders a section
carrying its label; the section is never rendered as an empty-valued shell.
(`notifHtml`/`notifText` are, by definition, the fixed template pieces
concatenated with exactly these section blocks.) -/
theorem notification_omits_absent_optional_sections (d : String) (b : ReqBody)
    (hv : passesValidation b = true) :
    (b.phone = none →
      notifHtmlPhoneBlock b.phone = "" ∧ notifTextPhoneLine b.phone = "") ∧
    (b.company = none →
      notifHtmlCompanyBlock b.company = "" ∧ notifTextCompanyLine b.company = "") ∧
    (b.budget = none →
      notifHtmlBudgetBlock b.budget = "" ∧ notifTextBudgetLine b.budget = "") ∧
    (b.projectType = none →
      notifHtmlProjectTypeBlock b.projectType = "" ∧
        notifTextProjectTypeLine b.projectType = "") ∧
    (truthy b.phone = true →
      jsIncludes (notifHtml d b) "📱 Phone" = true ∧
        jsIncludes (notifText d b) "Phone: " = true) ∧
    (truthy b.company = true →
      jsIncludes (notifHtml d b) "🏢 Company" = true ∧
        jsIncludes (notifText d b) "Company: " = true) ∧
    (truthy b.budget = true →
      jsIncludes (notifHtml d b) "💰 Budget Range" = true ∧
        jsIncludes (notifText d b) "Budget: " = true) ∧
    (truthy b.projectType = true →
      jsIncludes (notifHtml d b) "🎯 Project Type" = true ∧
        jsIncludes (notifText d b) "Project Type: " = true) := by
  refine ⟨?_, ?_, ?_, ?_, ?_, ?_, ?_, ?_⟩
  · intro hp; rw [hp]; exact ⟨rfl, rfl⟩
  · intro hp; rw [hp]; exact ⟨rfl, rfl⟩
  · intro hp; rw [hp]; exact ⟨rfl, rfl⟩
  · intro hp; rw [hp]; exact ⟨rfl, rfl⟩
  · intro ht
    constructor
    · unfold notifHtml
      iterate 9 apply jsIncludes_append_left
      apply jsIncludes_append_right
      unfold notifHtmlPhoneBlock
      rw [if_pos ht]
      iterate 4 apply jsIncludes_append_left
      decide
    · unfold notifText
      iterate 9 apply jsIncludes_append_left
      apply jsIncludes_append_right
      unfold notifTextPhoneLine
      rw [if_pos ht]
      iterate 2 apply jsIncludes_append_left
      decide
  · intro ht
    constructor
    · unfold notifHtml
      iterate 7 apply jsIncludes_append_left
      apply jsIncludes_append_right
      unfold notifHtmlCompanyBlock
      rw [if_pos ht]
      iterate 2 apply jsIncludes_append_left
      decide
    · unfold notifText
      iterate 7 apply jsIncludes_append_left
      apply jsIncludes_append_right
      unfold notifTextCompanyLine
      rw [if_pos ht]
      iterate 2 apply jsIncludes_append_left
      decide
  · intro ht
    constructor
    · unfold notifHtml
      iterate 5 apply jsIncludes_append_left
      apply jsIncludes_append_right
      unfold notifHtmlBudgetBlock
      rw [if_pos ht]
      iterate 4 apply jsIncludes_append_left
      decide
    · unfold notifText
      iterate 5 apply jsIncludes_append_left
      apply jsIncludes_append_right
      unfold notifTextBudgetLine
      rw [if_pos ht]
      iterate 2 apply jsIncludes_append_left
      decide
  · intro ht
    constructor
    · unfold notifHtml
      iterate 3 apply jsIncludes_append_left
      apply jsIncludes_append_right
      unfold notifHtmlProjectTypeBlock
      rw [if_pos ht]
      iterate 2 apply jsIncludes_append_left
      decide
    · unfold notifText
      iterate 3 apply jsIncludes_append_left
      apply jsIncludes_append_right
      unfold notifTextProjectTypeLine
      rw [if_pos ht]
      iterate 2 apply jsIncludes_append_left
      decide

/-- C7 witness: the spec's valid payload has all four optional fields absent,
and both of its rendered notification documents omit all four sections. -/
theorem notification_omits_absent_optional_sections_witness :
    (validBody.phone = none →
      notifHtmlPhoneBlock validBody.phone = "" ∧ notifTextPhoneLine validBody.phone = "") ∧
    (validBody.company = none →
      notifHtmlCompanyBlock validBody.company = "" ∧
        notifTextCompanyLine validBody.company = "") ∧
    (validBody.budget = none →
      notifHtmlBudgetBlock validBody.budget = "" ∧ notifTextBudgetLine validBody.budget = "") ∧
    (validBody.projectType = none →
      notifHtmlProjectTypeBlock validBody.projectType = "" ∧
        notifTextProjectTypeLine validBody.projectType = "") ∧
    (truthy validBody.phone = true →
      jsIncludes (notifHtml "5 October 2025" validBody) "📱 Phone" = true ∧
        jsIncludes (notifText "5 October 2025" validBody) "Phone: " = true) ∧
    (truthy validBody.company = true →
      jsIncludes (notifHtml "5 October 2025" validBody) "🏢 Company" = true ∧
        jsIncludes (notifText "5 October 2025" validBody) "Company: " = true) ∧
    (truthy validBody.budget = true →
      jsIncludes (notifHtml "5 October 2025" validBody) "💰 Budget Range" = true ∧
        jsIncludes (notifText "5 October 2025" validBody) "Budget: " = true) ∧
    (truthy validBody.projectType = true →
      jsIncludes (notifHtml "5 October 2025" validBody) "🎯 Project Type" = true ∧
        jsIncludes (notifText "5 October 2025" validBody) "Project Type: " = true) :=
  notification_omits_absent_optional_sections "5 October 2025" validBody (by decide)

/-! ## Claim C8 -/

/-- An e-mail form control whose raw value carries a leading space. -/
def trimGapField : FormField where
  value := " jane@x.com"
  required := true
  type := "email"

/-- The payload `handleFormSubmit` builds from that form: all controls
present, `email` sent raw (untrimmed), consent box checked, honeypot empty. -/
def trimGapBody : ReqBody :=
  submissionData (some "Jane") (some " jane@x.com") (some "") (some "") (some "")
    (some "") (some "Hi") true (some "")

/-- C8 counterexample: the raw e-mail value `" jane@x.com"` passes client-side
validation (`validateField` trims before testing) yet the submission built
from it is rejected by the server's e-mail format check with 400 — because
the client submits the untrimmed value, a submission that passes client-side
e-mail validation can be rejected server-side. -/
theorem client_server_email_gap :
    (validateField "en" trimGapField).1 = true ∧
    isValidEmail (jsTrim trimGapField.value) = true ∧
    trimGapBody.email = some (.str " jane@x.com") ∧
    emailRegexTest " jane@x.com" = false ∧
    (handler "POST" "5 October 2025" trimGapBody okProvider).status = 400 ∧
    (handler "POST" "5 October 2025" trimGapBody okProvider).sends = [] := by
  refine ⟨by decide, by decide, by decide, by decide, rfl, rfl⟩

/-- C8 (amended): `isValidEmail` and the server-side e-mail format check
apply the same regular expression and decide identically on every input
string; however, since `validateField` validates the trimmed field value
while `handleFormSubmit` submits the raw one, a submission that passes
client-side e-mail validation can still be rejected by the server's
e-mail-format check when the raw value has surrounding whitespace. -/
theorem isValidEmail_eq_emailRegexTest (s : String) :
    isValidEmail s = emailRegexTest s := rfl

/-! ## Claim C9 -/

/-- Unfolding of the `validateForm` fold from an arbitrary accumulator. -/
theorem validateForm_foldl (lang : String) (fields : List FormField)
    (a : Bool) (ms : List FieldMark) :
    fields.foldl
        (fun acc f =>
          let r := validateField lang f
          (acc.1 && r.1, acc.2 ++ [r.2]))
        (a, ms) =
      (a && fields.all (fun f => (validateField lang f).1),
       ms ++ fields.map (fun f => (validateField lang f).2)) := by
  induction fields generalizing a ms with
  | nil => simp
  | cons f fs ih =>
    simp only [List.foldl_cons, ih, List.all_cons, List.map_cons, Bool.and_assoc,
      List.append_assoc, List.singleton_append]

/-- C9: `validateForm` calls `validateField` on every required field of the
form without short-circuiting — the mark list records the visual feedback of
each and every field — and its boolean result is `true` exactly when every
required field passes validation. -/
theorem validateForm_no_short_circuit (lang : String) (fields : List FormField) :
    (validateForm lang fields).2 = fields.map (fun f => (validateField lang f).2) ∧
    ((validateForm lang fields).1 = true ↔
      ∀ f ∈ fields, (validateField lang f).1 = true) := by
  unfold validateForm
  rw [validateForm_foldl]
  constructor
  · simp
  · simp [List.all_eq_true]

/-! ## Claim C10 -/

theorem addClass_text (e : Elem) (c : String) : (addClass e c).text = e.text := by
  unfold addClass; split <;> rfl

theorem removeClass_text (e : Elem) (c : String) : (removeClass e c).text = e.text := rfl

theorem applyToggleClasses_text (l : String) (e : Elem) :
    (applyToggleClasses l e).text = e.text := by
  unfold applyToggleClasses
  split <;> simp [addClass_text, removeClass_text]

theorem applyPlaceholder_text (l : String) (e : Elem) :
    (applyPlaceholder l e).text = e.text := by
  unfold applyPlaceholder
  split
  · rfl
  · split <;> rfl

theorem getItem_setItem (st : List (String × String)) (k v : String) :
    getItem (setItem st k v) k = some v := by
  unfold getItem setItem
  simp

theorem switchLanguage_some_elim (lang : String) (p q : PageState)
    (h : switchLanguage lang p = some q) :
    ∃ es1 es2 es3,
      updateTranslatableElements lang p.elems = some es1 ∧
      updateLanguageToggles lang es1 = some es2 ∧
      updateFormPlaceholders lang es2 = some es3 ∧
      q = { elems := es3
            docLang := lang
            docDataLang := lang
            storage := setItem p.storage "digilima_lang" lang
            urlLang := if lang == "en" then none else some lang
            currentLang := lang } := by
  unfold switchLanguage at h
  cases he1 : updateTranslatableElements lang p.elems with
  | none => rw [he1, Option.none_bind] at h; cases h
  | some es1 =>
    rw [he1, Option.some_bind] at h
    cases he2 : updateLanguageToggles lang es1 with
    | none => rw [he2, Option.none_bind] at h; cases h
    | some es2 =>
      rw [he2, Option.some_bind] at h
      cases he3 : updateFormPlaceholders lang es2 with
      | none => rw [he3, Option.map_none'] at h; cases h
      | some es3 =>
        rw [he3, Option.map_some'] at h
        simp only [Option.some.injEq] at h
        exact ⟨es1, es2, es3, rfl, he2, he3, h.symm⟩

theorem switchLanguage_currentLang (lang : String) (p q : PageState)
    (h : switchLanguage lang p = some q) : q.currentLang = lang := by
  obtain ⟨es1, es2, es3, _, _, _, hq⟩ := switchLanguage_some_elim lang p q h
  rw [hq]

theorem updateTranslatableElements_some (lang : String) (es es1 : List Elem)
    (h : updateTranslatableElements lang es = some es1) :
    es1 = es.map (fun e =>
      if hasAttr e ("data-" ++ lang) then applyTranslation lang e else e) := by
  unfold updateTranslatableElements at h
  split at h
  · simp at h
  · exact (Option.some.inj h).symm

theorem updateLanguageToggles_some (lang : String) (es es1 : List Elem)
    (h : updateLanguageToggles lang es = some es1) :
    es1 = es.map (fun e =>
      if e.classes.contains "lang-toggle" then applyToggleClasses lang e else e) := by
  unfold updateLanguageToggles at h
  split at h
  · simp at h
  · exact (Option.some.inj h).symm

theorem updateFormPlaceholders_some (lang : String) (es es1 : List Elem)
    (h : updateFormPlaceholders lang es = some es1) :
    es1 = es.map (fun e =>
      if hasAttr e ("data-placeholder-" ++ lang) then applyPlaceholder lang e else e) := by
  unfold updateFormPlaceholders at h
  split at h
  · simp at h
  · exact (Option.some.inj h).symm

/-- A page with exactly two elements, the first of which carries an *empty*
`data-el` attribute and the text `"Hello"`. -/
def elemEmptyDataEl : Elem where
  tag := "DIV"
  attrs := [("data-el", "")]
  classes := []
  text := "Hello"
  placeholder := ""

def elemGreekDataEl : Elem where
  tag := "DIV"
  attrs := [("data-el", "Γεια")]
  classes := []
  text := "Hi"
  placeholder := ""

def pageTwoElems : PageState where
  elems := [elemEmptyDataEl, elemGreekDataEl]
  docLang := "en"
  docDataLang := "en"
  storage := []
  urlLang := none
  currentLang := "en"

/-- C10 counterexample: the first element carries a `data-el` attribute
(whose text is `""`), yet after switching to `el` its text content is still
`"Hello"`, not the attribute's text — `updateTranslatableElements` skips any
element whose translation attribute is empty (falsy), so not every element
carrying a `data-el` attribute is updated to that attribute's text. -/
theorem switchLanguage_empty_attr_not_updated :
    hasAttr elemEmptyDataEl "data-el" = true ∧
    getAttr elemEmptyDataEl "data-el" = some "" ∧
    (switchLanguage "el" pageTwoElems).map (fun q => q.elems.map (fun e => e.text)) =
      some ["Hello", "Γεια"] ∧
    ("Hello" : String) ≠ "" := by decide

/-- C10 (amended): when `switchLanguage "el"` completes (by the `$`-helper
quirk, each of its three collection updates throws a `TypeError` when its
selector matches exactly one element; a throw aborts the switch before
anything is persisted), it updates the text content of every non-input
element carrying a *non-empty* `data-el` attribute to that attribute's text
(elements whose `data-el` is empty are left alone), persists `"el"` under
the `digilima_lang` browser-storage key, and on a later page load with no
`lang` URL parameter the stored preference is applied as the active
language. -/
theorem switchLanguage_el_updates_and_persists (p q p2 r : PageState)
    (h : switchLanguage "el" p = some q)
    (hst : p2.storage = q.storage) (hurl : p2.urlLang = none)
    (h2 : initLanguageFromURL p2 = some r) :
    getItem q.storage "digilima_lang" = some "el" ∧
    q.currentLang = "el" ∧
    q.elems.length = p.elems.length ∧
    (∀ i (hi : i < p.elems.length) (hq : i < q.elems.length),
      (p.elems[i]).tag ≠ "INPUT" → (p.elems[i]).tag ≠ "TEXTAREA" →
      ∀ t, getAttr (p.elems[i]) "data-el" = some t → t ≠ "" →
        (q.elems[i]).text = t) ∧
    r.currentLang = "el" := by
  obtain ⟨es1, es2, es3, he1, he2, he3, hq⟩ := switchLanguage_some_elim "el" p q h
  have he1' := updateTranslatableElements_some "el" p.elems es1 he1
  have he2' := updateLanguageToggles_some "el" es1 es2 he2
  have he3' := updateFormPlaceholders_some "el" es2 es3 he3
  subst hq
  subst he3'
  subst he2'
  subst he1'
  have hstore :
      getItem (setItem p.storage "digilima_lang" "el") "digilima_lang" = some "el" :=
    getItem_setItem p.storage "digilima_lang" "el"
  refine ⟨hstore, rfl, by simp, ?_, ?_⟩
  · intro i hi hqi hInput hTextarea t hattr htne
    have hde : ("data-" ++ "el" : String) = "data-el" := rfl
    simp only [List.getElem_map]
    have hhas : hasAttr (p.elems[i]) ("data-" ++ "el") = true := by
      unfold hasAttr
      rw [hde, hattr]
      rfl
    rw [if_pos hhas]
    have htrans : applyTranslation "el" (p.elems[i]) = { p.elems[i] with text := t } := by
      unfold applyTranslation
      split
      next heq => rw [hde, hattr] at heq; cases heq
      next translation heq =>
        rw [hde, hattr] at heq
        obtain rfl : translation = t := (Option.some.inj heq).symm
        rw [if_neg (by simp [htne]), if_neg (by simp [hInput, hTextarea])]
    rw [htrans]
    have ht2 : ∀ x : Elem,
        (if x.classes.contains "lang-toggle" then applyToggleClasses "el" x else x).text
          = x.text := by
      intro x
      split
      · exact applyToggleClasses_text "el" x
      · rfl
    have ht3 : ∀ x : Elem,
        (if hasAttr x ("data-placeholder-" ++ "el") then applyPlaceholder "el" x else x).text
          = x.text := by
      intro x
      split
      · exact applyPlaceholder_text "el" x
      · rfl
    rw [ht3, ht2]
  · have hstored : getItem p2.storage "digilima_lang" = some "el" := by
      rw [hst]; exact hstore
    have hfalse : langOk none = false := rfl
    have htrue : langOk (some "el") = true := rfl
    have hgetD : ((some "el" : Option String)).getD "" = "el" := rfl
    unfold initLanguageFromURL at h2
    rw [hurl, hstored, hfalse, htrue, hgetD] at h2
    rw [if_neg (show ¬ (false = true) by decide), if_pos rfl] at h2
    exact switchLanguage_currentLang "el" p2 r h2

/-- Two translated elements (so that no selection is a singleton). -/
def elemContact : Elem where
  tag := "DIV"
  attrs := [("data-el", "Επικοινωνία")]
  classes := []
  text := "Contact"
  placeholder := ""

def elemServices : Elem where
  tag := "DIV"
  attrs := [("data-el", "Υπηρεσίες")]
  classes := []
  text := "Services"
  placeholder := ""

def pageBefore : PageState where
  elems := [elemContact, elemServices]
  docLang := "en"
  docDataLang := "en"
  storage := []
  urlLang := none
  currentLang := "en"

def pageAfter : PageState where
  elems := [{ elemContact with text := "Επικοινωνία" },
            { elemServices with text := "Υπηρεσίες" }]
  docLang := "el"
  docDataLang := "el"
  storage := [("digilima_lang", "el")]
  urlLang := some "el"
  currentLang := "el"

/-- The next page load: fresh DOM, the storage left by the switch, no `lang`
URL parameter. -/
def pageReload : PageState where
  elems := []
  docLang := "en"
  docDataLang := "en"
  storage := [("digilima_lang", "el")]
  urlLang := none
  currentLang := "en"

def pageReloaded : PageState where
  elems := []
  docLang := "el"
  docDataLang := "el"
  storage := [("digilima_lang", "el")]
  urlLang := some "el"
  currentLang := "el"

/-- C10 witness: a concrete two-element page switched to `el`, then a reload
that picks the language up from storage. -/
theorem switchLanguage_el_updates_and_persists_witness :
    getItem pageAfter.storage "digilima_lang" = some "el" ∧
    pageAfter.currentLang = "el" ∧
    pageAfter.elems.length = pageBefore.elems.length ∧
    (∀ i (hi : i < pageBefore.elems.length) (hq : i < pageAfter.elems.length),
      (pageBefore.elems[i]).tag ≠ "INPUT" → (pageBefore.elems[i]).tag ≠ "TEXTAREA" →
      ∀ t, getAttr (pageBefore.elems[i]) "data-el" = some t → t ≠ "" →
        (pageAfter.elems[i]).text = t) ∧
    pageReloaded.currentLang = "el" :=
  switchLanguage_el_updates_and_persists pageBefore pageAfter pageReload pageReloaded
    (by decide) (by decide) (by decide) (by decide)

end Digilima
